import Mathlib

/-!
# Verification of the csi-s3 controller server

Shallow embedding of `pkg/driver/controllerserver.go`: the volume identity
codec (`sanitizeVolumeID`, `volumeIDToBucketPrefix`) and the lifecycle
handlers (`CreateVolume`, `DeleteVolume`, `ValidateVolumeCapabilities`,
`ControllerExpandVolume`).

Modelling conventions:
* Go strings are Lean `String`s; Go `len` on a string is the UTF-8 byte
  length, embedded as `(strBytes s).length`.
* `strings.ToLower` is embedded as per-character lowering (`Char.toLower`);
  this coincides with Go for ASCII input, the intended alphabet of volume
  names, and is a fixed pure function either way.
* Machine words in SHA-1 are `Nat` with explicit reduction `% 2^32`;
  `CapacityBytes` (Go `int64`) is `Int`.
* The external S3 collaborator is modelled as an explicit state
  (`S3State`); backend mutations always succeed in the model, while
  metadata reads may fail (`Option`), which covers the unreadable-metadata
  paths of the Go code. Every handler additionally records the list of
  backend mutations it performed (`Action`).
-/

namespace CsiS3

/-! ## Go string primitives -/

/-- `strings.ToLower`, per character (ASCII-faithful case folding). -/
def goToLower (s : String) : String := ⟨s.data.map Char.toLower⟩

/-- UTF-8 encoding of one character, as byte values. Go strings are UTF-8
byte sequences; this is the standard RFC 3629 encoder. -/
def utf8Bytes (c : Char) : List Nat :=
  let n := c.toNat
  if n < 0x80 then [n]
  else if n < 0x800 then
    [0xC0 ||| (n >>> 6), 0x80 ||| (n &&& 0x3F)]
  else if n < 0x10000 then
    [0xE0 ||| (n >>> 12), 0x80 ||| ((n >>> 6) &&& 0x3F), 0x80 ||| (n &&& 0x3F)]
  else
    [0xF0 ||| (n >>> 18), 0x80 ||| ((n >>> 12) &&& 0x3F),
     0x80 ||| ((n >>> 6) &&& 0x3F), 0x80 ||| (n &&& 0x3F)]

/-- The UTF-8 bytes of a Go string (what Go's `len` and `sha1` consume). -/
def strBytes (s : String) : List Nat := s.data.flatMap utf8Bytes

/-- `strings.Split(s, "/")` on the character list: splits at every `'/'`,
Go semantics (`"" ↦ [""]`, separators at the ends produce empty fields). -/
def splitOnSlash : List Char → List (List Char)
  | [] => [[]]
  | c :: cs =>
    if c = '/' then [] :: splitOnSlash cs
    else
      match splitOnSlash cs with
      | [] => [[c]]
      | g :: gs => (c :: g) :: gs

/-- `strings.Split(volumeID, "/")` on strings. -/
def goSplitSlash (s : String) : List String :=
  (splitOnSlash s.data).map (fun l => ⟨l⟩)

/-! ## `encoding/hex` -/

/-- One lowercase hexadecimal digit, as in `encoding/hex`. -/
def hexDigit (n : Nat) : Char :=
  if n < 10 then Char.ofNat (48 + n) else Char.ofNat (87 + n)

/-- The two hex digits of one byte. -/
def hexByte (b : Nat) : List Char := [hexDigit (b / 16), hexDigit (b % 16)]

/-- `hex.EncodeToString` over a byte list. -/
def hexEncodeBytes (bs : List Nat) : String := ⟨bs.flatMap hexByte⟩

/-! ## `crypto/sha1`

SHA-1 (FIPS 180-4) over byte lists, words as `Nat` reduced mod `2^32`. -/

/-- `2^32`, the word modulus. -/
def M32 : Nat := 4294967296

/-- Left rotation of a 32-bit word. -/
def rotl32 (n x : Nat) : Nat := ((x <<< n) ||| (x >>> (32 - n))) % M32

/-- Big-endian bytes of `v`, `k` bytes wide. -/
def toBE (k : Nat) (v : Nat) : List Nat :=
  (List.range k).map (fun i => (v >>> (8 * (k - 1 - i))) % 256)

/-- SHA-1 padding: append `0x80`, zero bytes to 56 mod 64, then the
big-endian 64-bit bit length. -/
def sha1Pad (msg : List Nat) : List Nat :=
  let len := msg.length
  let zeros := (119 - len % 64) % 64
  msg ++ 0x80 :: List.replicate zeros 0 ++ toBE 8 (len * 8)

/-- Split a byte list into 64-byte blocks (`fuel` bounds the recursion
depth; each step consumes a nonempty list, so `l.length` is enough). -/
def chunk64Go : Nat → List Nat → List (List Nat)
  | _, [] => []
  | 0, _ :: _ => []
  | fuel + 1, a :: rest => (a :: rest).take 64 :: chunk64Go fuel ((a :: rest).drop 64)

/-- Split a byte list into 64-byte blocks. -/
def chunk64 (l : List Nat) : List (List Nat) := chunk64Go l.length l

/-- Big-endian 32-bit words of a block. -/
def bytesToWords : List Nat → List Nat
  | b0 :: b1 :: b2 :: b3 :: rest =>
    (b0 * 16777216 + b1 * 65536 + b2 * 256 + b3) :: bytesToWords rest
  | _ => []

/-- Message-schedule extension: `acc` holds the words produced so far in
reverse order; each step adds `rotl1 (w3 ^^^ w8 ^^^ w14 ^^^ w16)`. -/
def sha1ExtendAux : List Nat → Nat → List Nat
  | acc, 0 => acc
  | acc, k + 1 =>
    let w := rotl32 1 (((acc.getD 2 0) ^^^ (acc.getD 7 0)) ^^^
                       ((acc.getD 13 0) ^^^ (acc.getD 15 0)))
    sha1ExtendAux (w :: acc) k

/-- The 80-word message schedule of one block. -/
def sha1Extend (w16 : List Nat) : List Nat :=
  (sha1ExtendAux w16.reverse 64).reverse

/-- One SHA-1 round: state `(a,b,c,d,e)`, round index `i`, word `w`. -/
def sha1Round (st : Nat × Nat × Nat × Nat × Nat) (iw : Nat × Nat) :
    Nat × Nat × Nat × Nat × Nat :=
  let (a, b, c, d, e) := st
  let (i, w) := iw
  let f :=
    if i < 20 then (b &&& c) ||| ((b ^^^ (M32 - 1)) &&& d)
    else if i < 40 then (b ^^^ c) ^^^ d
    else if i < 60 then ((b &&& c) ||| (b &&& d)) ||| (c &&& d)
    else (b ^^^ c) ^^^ d
  let k :=
    if i < 20 then 0x5A827999
    else if i < 40 then 0x6ED9EBA1
    else if i < 60 then 0x8F1BBCDC
    else 0xCA62C1D6
  let temp := (rotl32 5 a + f + e + k + w) % M32
  (temp, a, rotl32 30 b, c, d)

/-- Compression of one 64-byte block into the hash state. -/
def sha1Block (h : Nat × Nat × Nat × Nat × Nat) (block : List Nat) :
    Nat × Nat × Nat × Nat × Nat :=
  let w := sha1Extend (bytesToWords block)
  let (h0, h1, h2, h3, h4) := h
  let (a, b, c, d, e) := ((List.range 80).zip w).foldl sha1Round h
  ((h0 + a) % M32, (h1 + b) % M32, (h2 + c) % M32, (h3 + d) % M32,
   (h4 + e) % M32)

/-- `sha1.Sum`: the 20-byte SHA-1 digest of a byte list. -/
def sha1 (msg : List Nat) : List Nat :=
  let h :=
    (chunk64 (sha1Pad msg)).foldl sha1Block
      (0x67452301, 0xEFCDAB89, 0x98BADCFE, 0x10325476, 0xC3D2E1F0)
  toBE 4 h.1 ++ toBE 4 h.2.1 ++ toBE 4 h.2.2.1 ++ toBE 4 h.2.2.2.1 ++
    toBE 4 h.2.2.2.2

/-! ## The identity codec (`controllerserver.go`) -/

/-- `sanitizeVolumeID`: lower-case the name; if the result is longer than
63 bytes, replace it by the hex SHA-1 digest of the lowered name. -/
def sanitizeVolumeID (volumeID : String) : String :=
  let lowered := goToLower volumeID
  if (strBytes lowered).length > 63 then
    hexEncodeBytes (sha1 (strBytes lowered))
  else lowered

/-- `volumeIDToBucketPrefix`: bucket and key path from a volume ID.
Splits on `/`; with more than one field the bucket is field 0 and the
path is field 1; otherwise the whole ID is the bucket and the path is
empty. -/
def volumeIDToBucketPrefix (volumeID : String) : String × String :=
  let splitVolumeID := goSplitSlash volumeID
  if splitVolumeID.length > 1 then
    (splitVolumeID.getD 0 "", splitVolumeID.getD 1 "")
  else
    (volumeID, "")

/-! ## `path.Clean` / `path.Join`

Go's `path.Clean` by segment processing: drop empty and `.` elements,
let `..` cancel the preceding element (or vanish at the root). `acc`
holds the output elements in reverse order. -/

/-- Segment processor of `path.Clean`. -/
def cleanSegsCore (rooted : Bool) : List (List Char) → List (List Char) → List (List Char)
  | acc, [] => acc
  | acc, seg :: rest =>
    if seg = [] ∨ seg = ['.'] then cleanSegsCore rooted acc rest
    else if seg = ['.', '.'] then
      match acc with
      | top :: acc2 =>
        if top = ['.', '.'] then cleanSegsCore rooted (seg :: top :: acc2) rest
        else cleanSegsCore rooted acc2 rest
      | [] =>
        if rooted then cleanSegsCore rooted [] rest
        else cleanSegsCore rooted [seg] rest
    else cleanSegsCore rooted (seg :: acc) rest

/-- Join path elements with `'/'`. -/
def intercalateSlash : List (List Char) → List Char
  | [] => []
  | [x] => x
  | x :: y :: xs => x ++ '/' :: intercalateSlash (y :: xs)

/-- Go `path.Clean` (lexical shortest equivalent path). -/
def pathClean (p : String) : String :=
  if p = "" then "."
  else
    let rooted := p.data.headD ' ' = '/'
    let out := (cleanSegsCore rooted [] (splitOnSlash p.data)).reverse
    let joined := intercalateSlash out
    if rooted then ⟨'/' :: joined⟩
    else if joined = [] then "." else ⟨joined⟩

/-- Go `path.Join` on two elements: empty elements are skipped, the
joined string is cleaned. -/
def pathJoin (a b : String) : String :=
  if a = "" ∧ b = "" then ""
  else if a = "" then pathClean b
  else pathClean (a ++ "/" ++ b)

/-! ## CSI data model -/

/-- `csi.VolumeCapability_AccessMode_Mode` (the modes used here). -/
inductive AccessMode
  | UNKNOWN
  | SINGLE_NODE_WRITER
  | SINGLE_NODE_READER_ONLY
  | MULTI_NODE_READER_ONLY
  | MULTI_NODE_SINGLE_WRITER
  | MULTI_NODE_MULTI_WRITER
  deriving DecidableEq, Repr

/-- `csi.VolumeCapability`: only the access mode matters to this code.
`none` models a nil `AccessMode` pointer. -/
structure VolumeCapability where
  accessMode : Option AccessMode
  deriving DecidableEq, Repr

/-- `cap.GetAccessMode().GetMode()`: a nil access mode reads as the zero
mode `UNKNOWN`. -/
def getMode (c : VolumeCapability) : AccessMode := c.accessMode.getD .UNKNOWN

/-- `s3.FSMeta`. The Go field `Prefix` is named `pfx` (Lean keyword). -/
structure FSMeta where
  bucketName : String
  pfx : String
  mounter : String
  capacityBytes : Int
  fsPath : String
  createdByCsi : Bool
  deriving DecidableEq, Repr

/-- `defaultFsPath` constant. -/
def defaultFsPath : String := "csi-fs"

/-! ## The S3 backend model

The external S3 client, as a state: existing buckets, the metadata
record per (bucket, prefix) key, and created prefixes. Mutations always
succeed in the model; a metadata read may fail (`none`), covering both
a missing and an unreadable record. -/

/-- Backend state of the S3 collaborator. -/
structure S3State where
  buckets : List String
  metas : List ((String × String) × FSMeta)
  prefixes : List (String × String)
  deriving DecidableEq, Repr

/-- `client.BucketExists`. -/
def bucketExists (st : S3State) (b : String) : Bool := st.buckets.contains b

/-- `client.GetFSMeta`: `none` when the record is missing or unreadable. -/
def getFSMeta (st : S3State) (b p : String) : Option FSMeta := st.metas.lookup (b, p)

/-- `client.CreateBucket`. -/
def createBucket (st : S3State) (b : String) : S3State :=
  { st with buckets := b :: st.buckets }

/-- `client.CreatePrefix`. -/
def createPfx (st : S3State) (b p : String) : S3State :=
  { st with prefixes := (b, p) :: st.prefixes }

/-- `client.SetFSMeta`: overwrite the record at `(m.bucketName, m.pfx)`. -/
def setFSMeta (st : S3State) (m : FSMeta) : S3State :=
  { st with metas := ((m.bucketName, m.pfx), m) :: st.metas }

/-- `client.RemoveBucket`: the bucket and everything inside it goes. -/
def removeBucket (st : S3State) (b : String) : S3State :=
  { buckets := st.buckets.filter (fun x => x != b),
    metas := st.metas.filter (fun e => e.1.1 != b),
    prefixes := st.prefixes.filter (fun e => e.1 != b) }

/-- `client.RemovePrefix`: objects under the prefix go, the metadata
record at that prefix among them. -/
def removePfx (st : S3State) (b p : String) : S3State :=
  { st with
    metas := st.metas.filter (fun e => e.1 != (b, p)),
    prefixes := st.prefixes.filter (fun e => e != (b, p)) }

/-- Backend mutations a handler can perform, recorded in order. -/
inductive Action
  | aCreateBucket (bucket : String)
  | aCreatePfx (bucket : String) (path : String)
  | aRemoveBucket (bucket : String)
  | aRemovePfx (bucket : String) (path : String)
  | aSetFSMeta (m : FSMeta)
  deriving DecidableEq, Repr

/-! ## gRPC surface -/

/-- The gRPC error codes this file distinguishes. `driverRejected` is the
error of the external `ValidateControllerServiceRequest`; `internalError`
covers the plain (non-status) errors the Go code returns. -/
inductive Code
  | invalidArgument
  | alreadyExists
  | notFound
  | unimplemented
  | driverRejected
  | internalError
  deriving DecidableEq, Repr

/-- Modelled from the spec: the bucket-name-override parameter key
(`mounter.BucketKey`, defined in the external mounter package; its
literal value decides nothing here). -/
def BucketKey : String := "bucket"

/-- Modelled from the spec: the mounter-type parameter key
(`mounter.TypeKey`, defined in the external mounter package). -/
def TypeKey : String := "mounter"

/-- Parameter-map lookup (`params[key]` with its `ok` flag). -/
def lookupParam (params : List (String × String)) (k : String) : Option String :=
  params.lookup k

/-- `csi.CreateVolumeRequest`: the fields the handler reads.
`capabilities = none` models a nil capability slice; `requiredBytes` is
`GetCapacityRange().GetRequiredBytes()` (0 when the range is absent).
Secrets are not modelled: client construction succeeds in the model. -/
structure CreateVolumeRequest where
  name : String
  capabilities : Option (List VolumeCapability)
  requiredBytes : Int
  parameters : List (String × String)
  deriving DecidableEq, Repr

/-- `csi.Volume` of the response. -/
structure CsiVolume where
  volumeId : String
  capacityBytes : Int
  volumeContext : List (String × String)
  deriving DecidableEq, Repr

/-- Result, final backend state and recorded mutations of a CreateVolume
call. -/
structure CreateOutcome where
  result : Except Code CsiVolume
  state : S3State
  actions : List Action

/-- `csi.DeleteVolumeRequest`. -/
structure DeleteVolumeRequest where
  volumeId : String
  deriving DecidableEq, Repr

/-- Result, final backend state and recorded mutations of a DeleteVolume
call. -/
structure DeleteOutcome where
  result : Except Code Unit
  state : S3State
  actions : List Action

/-- `csi.ValidateVolumeCapabilitiesRequest`. -/
structure ValidateRequest where
  volumeId : String
  capabilities : Option (List VolumeCapability)
  deriving DecidableEq, Repr

/-- `csi.ValidateVolumeCapabilitiesResponse`: either a `Confirmed` block
(here: its capability list) or an explanatory `Message`. -/
structure ValidateResponse where
  confirmed : Option (List VolumeCapability)
  message : String
  deriving DecidableEq, Repr

/-! ## CreateVolume -/

/-- The bucket name CreateVolume works with: the override parameter when
present, else the sanitized name. -/
def cvBucketName (req : CreateVolumeRequest) : String :=
  match lookupParam req.parameters BucketKey with
  | some nameOverride => nameOverride
  | none => sanitizeVolumeID req.name

/-- The key prefix CreateVolume works with: the sanitized name in
override mode, else empty. -/
def cvPfx (req : CreateVolumeRequest) : String :=
  match lookupParam req.parameters BucketKey with
  | some _ => sanitizeVolumeID req.name
  | none => ""

/-- The volume ID CreateVolume assigns: `path.Join(override, sanitized)`
in override mode, else the sanitized name. -/
def cvVolumeID (req : CreateVolumeRequest) : String :=
  match lookupParam req.parameters BucketKey with
  | some nameOverride => pathJoin nameOverride (sanitizeVolumeID req.name)
  | none => sanitizeVolumeID req.name

/-- `controllerServer.CreateVolume`. `csOk` is the verdict of the
external `ValidateControllerServiceRequest`. -/
def CreateVolume (csOk : Bool) (req : CreateVolumeRequest) (st : S3State) :
    CreateOutcome :=
  let bucketName := cvBucketName req
  let pfx := cvPfx req
  let volumeID := cvVolumeID req
  if !csOk then ⟨.error .driverRejected, st, []⟩
  else if volumeID = "" then ⟨.error .invalidArgument, st, []⟩
  else if req.capabilities = none then ⟨.error .invalidArgument, st, []⟩
  else
    let capacityBytes := req.requiredBytes
    let mounterTag := (lookupParam req.parameters TypeKey).getD ""
    let bExists := bucketExists st bucketName
    if bExists then
      match getFSMeta st bucketName pfx with
      | none =>
        let m : FSMeta :=
          ⟨bucketName, pfx, mounterTag, capacityBytes, defaultFsPath, false⟩
        ⟨.ok ⟨volumeID, capacityBytes, req.parameters⟩, setFSMeta st m,
         [.aSetFSMeta m]⟩
      | some meta0 =>
        if capacityBytes > meta0.capacityBytes then
          ⟨.error .alreadyExists, st, []⟩
        else
          let m := { meta0 with mounter := mounterTag }
          ⟨.ok ⟨volumeID, capacityBytes, req.parameters⟩, setFSMeta st m,
           [.aSetFSMeta m]⟩
    else
      let st1 := createBucket st bucketName
      let st2 := createPfx st1 bucketName (pathJoin pfx defaultFsPath)
      let m : FSMeta :=
        ⟨bucketName, pfx, mounterTag, capacityBytes, defaultFsPath, !bExists⟩
      ⟨.ok ⟨volumeID, capacityBytes, req.parameters⟩, setFSMeta st2 m,
       [.aCreateBucket bucketName, .aCreatePfx bucketName (pathJoin pfx defaultFsPath),
        .aSetFSMeta m]⟩

/-! ## DeleteVolume -/

/-- `controllerServer.DeleteVolume`. -/
def DeleteVolume (csOk : Bool) (req : DeleteVolumeRequest) (st : S3State) :
    DeleteOutcome :=
  let volumeID := req.volumeId
  let bp := volumeIDToBucketPrefix volumeID
  let bucketName := bp.1
  let pfx := bp.2
  if volumeID = "" then ⟨.error .invalidArgument, st, []⟩
  else if !csOk then ⟨.error .driverRejected, st, []⟩
  else if bucketExists st bucketName then
    match getFSMeta st bucketName pfx with
    | none => ⟨.error .internalError, st, []⟩
    | some m =>
      let stepPfx : S3State × List Action :=
        if pfx ≠ "" then (removePfx st bucketName pfx, [.aRemovePfx bucketName pfx])
        else (st, [])
      if m.createdByCsi then
        ⟨.ok (), removeBucket stepPfx.1 bucketName, stepPfx.2 ++ [.aRemoveBucket bucketName]⟩
      else
        ⟨.ok (), stepPfx.1, stepPfx.2⟩
  else
    ⟨.ok (), st, []⟩

/-! ## ValidateVolumeCapabilities -/

/-- The single supported access mode (`supportedAccessMode` in Go). -/
def supportedAccessMode : AccessMode := .SINGLE_NODE_WRITER

/-- `controllerServer.ValidateVolumeCapabilities` (read-only; no driver
capability check is made in the Go code). -/
def ValidateVolumeCapabilities (req : ValidateRequest) (st : S3State) :
    Except Code ValidateResponse :=
  if req.volumeId = "" then .error .invalidArgument
  else
    match req.capabilities with
    | none => .error .invalidArgument
    | some caps =>
      let bp := volumeIDToBucketPrefix req.volumeId
      if !(bucketExists st bp.1) then .error .notFound
      else
        match getFSMeta st bp.1 bp.2 with
        | none => .error .notFound
        | some _ =>
          if caps.all (fun c => getMode c == supportedAccessMode) then
            .ok ⟨some [⟨some supportedAccessMode⟩], ""⟩
          else
            .ok ⟨none, "Only single node writer is supported"⟩

/-! ## ControllerExpandVolume -/

/-- `controllerServer.ControllerExpandVolume`: always unimplemented. -/
def ControllerExpandVolume : Except Code Unit := .error .unimplemented

/-- A lowercase hexadecimal digit (the alphabet `hex.EncodeToString`
emits). -/
def isHexLower (c : Char) : Bool := "0123456789abcdef".data.contains c

end CsiS3

deriving instance DecidableEq for Except

namespace CsiS3

/-! ## Helper lemmas: splitting -/

lemma splitOnSlash_of_not_mem (l : List Char) (h : '/' ∉ l) :
    splitOnSlash l = [l] := by
  induction l with
  | nil => rfl
  | cons c cs ih =>
    simp only [List.mem_cons, not_or] at h
    obtain ⟨h1, h2⟩ := h
    simp only [splitOnSlash]
    rw [if_neg (fun hc => h1 hc.symm), ih h2]

lemma splitOnSlash_append (b rest : List Char) (h : '/' ∉ b) :
    splitOnSlash (b ++ '/' :: rest) = b :: splitOnSlash rest := by
  induction b with
  | nil => simp [splitOnSlash]
  | cons c cs ih =>
    simp only [List.mem_cons, not_or] at h
    obtain ⟨h1, h2⟩ := h
    simp only [List.cons_append, splitOnSlash, List.append_eq]
    rw [if_neg (fun hc => h1 hc.symm), ih h2]

lemma volumeIDToBucketPrefix_of_no_slash (s : String) (h : '/' ∉ s.data) :
    volumeIDToBucketPrefix s = (s, "") := by
  unfold volumeIDToBucketPrefix goSplitSlash
  rw [splitOnSlash_of_not_mem s.data h]
  simp

/-! ## Helper lemmas: hex and SHA-1 shape -/

lemma toBE_length (k v : Nat) : (toBE k v).length = k := by
  simp [toBE]

lemma toBE_lt (k v : Nat) : ∀ x ∈ toBE k v, x < 256 := by
  intro x hx
  simp only [toBE, List.mem_map, List.mem_range] at hx
  obtain ⟨i, _, rfl⟩ := hx
  exact Nat.mod_lt _ (by norm_num)

lemma sha1_length (msg : List Nat) : (sha1 msg).length = 20 := by
  simp [sha1, toBE_length]

lemma sha1_lt (msg : List Nat) : ∀ x ∈ sha1 msg, x < 256 := by
  intro x hx
  simp only [sha1, List.mem_append] at hx
  rcases hx with ((((h | h) | h) | h) | h) <;> exact toBE_lt _ _ _ h

lemma hexDigit_hex (n : Nat) (h : n < 16) : isHexLower (hexDigit n) = true := by
  interval_cases n <;> decide

lemma hexByte_hex (b : Nat) (h : b < 256) :
    ∀ c ∈ hexByte b, isHexLower c = true := by
  intro c hc
  simp only [hexByte, List.mem_cons, List.not_mem_nil, or_false] at hc
  rcases hc with rfl | rfl
  · exact hexDigit_hex _ (by omega)
  · exact hexDigit_hex _ (Nat.mod_lt _ (by norm_num))

lemma hexEncodeBytes_length (bs : List Nat) :
    (hexEncodeBytes bs).length = 2 * bs.length := by
  show (bs.flatMap hexByte).length = 2 * bs.length
  induction bs with
  | nil => rfl
  | cons b bs ih =>
    simp only [List.flatMap_cons, List.length_append, List.length_cons, ih, hexByte]
    simp
    omega

lemma hexEncodeBytes_hex (bs : List Nat) (h : ∀ x ∈ bs, x < 256) :
    (hexEncodeBytes bs).data.all isHexLower = true := by
  show (bs.flatMap hexByte).all isHexLower = true
  rw [List.all_eq_true]
  intro c hc
  rw [List.mem_flatMap] at hc
  obtain ⟨b, hb, hcb⟩ := hc
  exact hexByte_hex b (h b hb) c hcb

/-! ## Claims about the identity codec -/

/-- C4: the claim that `volumeIDToBucketPrefix` returns the entire
segment after the first slash as the prefix is false: for an ID with two
slashes the code returns only the second field of the split and drops
the rest. Concretely `"a/b/c"` decodes to `("a", "b")`, not
`("a", "b/c")`. -/
theorem claim_C4_counterexample :
    volumeIDToBucketPrefix "a/b/c" ≠ ("a", "b/c") := by
  decide

/-- C4 (amended): `volumeIDToBucketPrefix` is pure and total; it splits
on `/` — the segment before the first slash is the bucket, the segment
between the first and second slash is the prefix, anything after a
second slash is dropped — and returns an empty prefix when the
identifier contains no slash. -/
theorem claim_C4_decode (id b p rest : String) :
    ('/' ∉ id.data → volumeIDToBucketPrefix id = (id, "")) ∧
    ('/' ∉ b.data → '/' ∉ p.data →
      volumeIDToBucketPrefix (b ++ "/" ++ p) = (b, p)) ∧
    ('/' ∉ b.data → '/' ∉ p.data →
      volumeIDToBucketPrefix (b ++ "/" ++ p ++ "/" ++ rest) = (b, p)) := by
  refine ⟨fun h => volumeIDToBucketPrefix_of_no_slash id h,
          fun hb hp => ?_, fun hb hp => ?_⟩
  · unfold volumeIDToBucketPrefix goSplitSlash
    have hdata : (b ++ "/" ++ p).data = b.data ++ '/' :: p.data := by
      simp [String.data_append]
    rw [hdata, splitOnSlash_append _ _ hb, splitOnSlash_of_not_mem _ hp]
    simp
  · unfold volumeIDToBucketPrefix goSplitSlash
    have hdata : (b ++ "/" ++ p ++ "/" ++ rest).data =
        b.data ++ '/' :: (p.data ++ '/' :: rest.data) := by
      simp [String.data_append]
    rw [hdata, splitOnSlash_append _ _ hb, splitOnSlash_append _ _ hp]
    simp

/-- C4 witness: concrete decodes, including the dropped remainder. -/
theorem claim_C4_decode_witness :
    volumeIDToBucketPrefix "bucket" = ("bucket", "") ∧
    volumeIDToBucketPrefix ("bucket" ++ "/" ++ "pfx") = ("bucket", "pfx") ∧
    volumeIDToBucketPrefix ("a" ++ "/" ++ "b" ++ "/" ++ "c") = ("a", "b") :=
  ⟨(claim_C4_decode "bucket" "x" "y" "z").1 (by decide),
   (claim_C4_decode "q" "bucket" "pfx" "z").2.1 (by decide) (by decide),
   (claim_C4_decode "q" "a" "b" "c").2.2 (by decide) (by decide)⟩

/-- C5: `sanitizeVolumeID` is pure and deterministic (a function of its
argument); when the lower-cased name is at most 63 bytes it is returned
unchanged, and when it is longer the result is the 40-character
lowercase-hexadecimal SHA-1 digest of the lower-cased name. -/
theorem claim_C5_sanitize (name : String) :
    sanitizeVolumeID name =
      (if (strBytes (goToLower name)).length ≤ 63 then goToLower name
       else hexEncodeBytes (sha1 (strBytes (goToLower name)))) ∧
    ((strBytes (goToLower name)).length > 63 →
      (sanitizeVolumeID name).length = 40 ∧
      (sanitizeVolumeID name).data.all isHexLower = true) := by
  constructor
  · unfold sanitizeVolumeID
    by_cases h : (strBytes (goToLower name)).length ≤ 63
    · rw [if_neg (by omega), if_pos h]
    · rw [if_pos (by omega), if_neg h]
  · intro h
    unfold sanitizeVolumeID
    rw [if_pos h]
    refine ⟨?_, hexEncodeBytes_hex _ (sha1_lt _)⟩
    show (hexEncodeBytes (sha1 (strBytes (goToLower name)))).length = 40
    rw [hexEncodeBytes_length, sha1_length]

set_option maxRecDepth 40000 in
/-- C5 witness: a short name is lower-cased in place; a 64-character
name hashes to a 40-character identifier (concretely, the SHA-1 digest
of 64 × `a`). -/
theorem claim_C5_sanitize_witness :
    sanitizeVolumeID "MY-Volume" = "my-volume" ∧
    (sanitizeVolumeID
      "AAAAAAAAAAAAAAAAAAAAAAAAAAAAAAAAAAAAAAAAAAAAAAAAAAAAAAAAAAAAAAAA").length = 40 ∧
    sanitizeVolumeID
      "AAAAAAAAAAAAAAAAAAAAAAAAAAAAAAAAAAAAAAAAAAAAAAAAAAAAAAAAAAAAAAAA" =
      "0098ba824b5c16427bd7a1122a5a442a25ec644d" := by
  refine ⟨?_, ?_, ?_⟩
  · have h := (claim_C5_sanitize "MY-Volume").1
    rw [if_pos (by decide)] at h
    rw [h]
    decide
  · exact ((claim_C5_sanitize
      "AAAAAAAAAAAAAAAAAAAAAAAAAAAAAAAAAAAAAAAAAAAAAAAAAAAAAAAAAAAAAAAA").2
      (by decide)).1
  · have h := (claim_C5_sanitize
      "AAAAAAAAAAAAAAAAAAAAAAAAAAAAAAAAAAAAAAAAAAAAAAAAAAAAAAAAAAAAAAAA").1
    rw [if_neg (by decide)] at h
    rw [h]
    decide

/-- C8: whenever a derived identifier contains no slash, decoding it
yields the identifier itself as bucket and an empty prefix. -/
theorem claim_C8_roundtrip (name : String)
    (h : '/' ∉ (sanitizeVolumeID name).data) :
    volumeIDToBucketPrefix (sanitizeVolumeID name) =
      (sanitizeVolumeID name, "") :=
  volumeIDToBucketPrefix_of_no_slash _ h

/-- C8 witness: round-trip of a concrete derived identifier. -/
theorem claim_C8_roundtrip_witness :
    volumeIDToBucketPrefix (sanitizeVolumeID "My-Volume") =
      (sanitizeVolumeID "My-Volume", "") :=
  claim_C8_roundtrip "My-Volume" (by decide)

/-! ## Helper lemmas: backend state -/

lemma bucketExists_removeBucket (st : S3State) (b : String) :
    bucketExists (removeBucket st b) b = false := by
  simp [bucketExists, removeBucket, List.mem_filter]

lemma bucketExists_removePfx (st : S3State) (b p b2 : String) :
    bucketExists (removePfx st b p) b2 = bucketExists st b2 := rfl

/-! ## Claims about DeleteVolume -/

/-- C1: the claim is false on the code. With a non-empty prefix,
`DeleteVolume` removes the prefix contents and then still consults
`CreatedByCsi`: when the flag is true the whole bucket is removed as
well, so the bucket is *not* left intact "regardless of the metadata's
CreatedByCsi value". Concrete input: volume ID `"b/p"` against a state
whose bucket `b` exists with readable metadata marked
`CreatedByCsi = true`. -/
theorem claim_C1_counterexample :
    volumeIDToBucketPrefix "b/p" = ("b", "p") ∧
    bucketExists ⟨["b"], [(("b", "p"), ⟨"b", "p", "", 5, "csi-fs", true⟩)], []⟩ "b" = true ∧
    getFSMeta ⟨["b"], [(("b", "p"), ⟨"b", "p", "", 5, "csi-fs", true⟩)], []⟩ "b" "p" =
      some ⟨"b", "p", "", 5, "csi-fs", true⟩ ∧
    (DeleteVolume true ⟨"b/p"⟩
      ⟨["b"], [(("b", "p"), ⟨"b", "p", "", 5, "csi-fs", true⟩)], []⟩).result = .ok () ∧
    Action.aRemoveBucket "b" ∈ (DeleteVolume true ⟨"b/p"⟩
      ⟨["b"], [(("b", "p"), ⟨"b", "p", "", 5, "csi-fs", true⟩)], []⟩).actions ∧
    bucketExists (DeleteVolume true ⟨"b/p"⟩
      ⟨["b"], [(("b", "p"), ⟨"b", "p", "", 5, "csi-fs", true⟩)], []⟩).state "b" = false := by
  decide

/-- C1 (amended): for every DeleteVolume call whose volume identifier
decodes to a non-empty prefix and whose bucket exists with readable
metadata, the operation removes that prefix's contents; the bucket
itself is left intact exactly when the metadata's `CreatedByCsi` is
false — when it is true, the bucket is removed as well. -/
theorem claim_C1_delete_shared (req : DeleteVolumeRequest) (st : S3State)
    (b p : String) (m : FSMeta)
    (hbp : volumeIDToBucketPrefix req.volumeId = (b, p))
    (hp : p ≠ "")
    (hvid : req.volumeId ≠ "")
    (hex : bucketExists st b = true)
    (hm : getFSMeta st b p = some m) :
    (DeleteVolume true req st).result = .ok () ∧
    (DeleteVolume true req st).actions =
      .aRemovePfx b p ::
        (if m.createdByCsi then [.aRemoveBucket b] else []) ∧
    (Action.aRemoveBucket b ∈ (DeleteVolume true req st).actions ↔
      m.createdByCsi = true) := by
  have h1 : (volumeIDToBucketPrefix req.volumeId).1 = b := by rw [hbp]
  have h2 : (volumeIDToBucketPrefix req.volumeId).2 = p := by rw [hbp]
  simp only [DeleteVolume, h1, h2, hex, hm, hvid, hp]
  cases hc : m.createdByCsi <;> simp [hp]

/-- C1 witness: the amended statement at the counterexample's input. -/
theorem claim_C1_delete_shared_witness :
    (DeleteVolume true ⟨"b/p"⟩
      ⟨["b"], [(("b", "p"), ⟨"b", "p", "", 5, "csi-fs", true⟩)], []⟩).result = .ok () ∧
    (DeleteVolume true ⟨"b/p"⟩
      ⟨["b"], [(("b", "p"), ⟨"b", "p", "", 5, "csi-fs", true⟩)], []⟩).actions =
      .aRemovePfx "b" "p" ::
        (if (FSMeta.mk "b" "p" "" 5 "csi-fs" true).createdByCsi then
          [.aRemoveBucket "b"] else []) ∧
    (Action.aRemoveBucket "b" ∈ (DeleteVolume true ⟨"b/p"⟩
      ⟨["b"], [(("b", "p"), ⟨"b", "p", "", 5, "csi-fs", true⟩)], []⟩).actions ↔
      (FSMeta.mk "b" "p" "" 5 "csi-fs" true).createdByCsi = true) :=
  claim_C1_delete_shared ⟨"b/p"⟩
    ⟨["b"], [(("b", "p"), ⟨"b", "p", "", 5, "csi-fs", true⟩)], []⟩
    "b" "p" ⟨"b", "p", "", 5, "csi-fs", true⟩
    (by decide) (by decide) (by decide) (by decide) (by decide)

/-- C3: DeleteVolume on a missing bucket is a successful no-op; with
readable metadata, `CreatedByCsi = true` means the bucket is removed and
`CreatedByCsi = false` means the bucket survives, in both cases with a
success result. -/
theorem claim_C3_delete (req : DeleteVolumeRequest) (st : S3State) (b p : String)
    (hbp : volumeIDToBucketPrefix req.volumeId = (b, p))
    (hvid : req.volumeId ≠ "") :
    (bucketExists st b = false →
      (DeleteVolume true req st).result = .ok () ∧
      (DeleteVolume true req st).state = st ∧
      (DeleteVolume true req st).actions = []) ∧
    (∀ m : FSMeta, bucketExists st b = true → getFSMeta st b p = some m →
      m.createdByCsi = true →
      (DeleteVolume true req st).result = .ok () ∧
      Action.aRemoveBucket b ∈ (DeleteVolume true req st).actions ∧
      bucketExists (DeleteVolume true req st).state b = false) ∧
    (∀ m : FSMeta, bucketExists st b = true → getFSMeta st b p = some m →
      m.createdByCsi = false →
      (DeleteVolume true req st).result = .ok () ∧
      Action.aRemoveBucket b ∉ (DeleteVolume true req st).actions ∧
      bucketExists (DeleteVolume true req st).state b = true) := by
  have h1 : (volumeIDToBucketPrefix req.volumeId).1 = b := by rw [hbp]
  have h2 : (volumeIDToBucketPrefix req.volumeId).2 = p := by rw [hbp]
  refine ⟨fun hne => ?_, fun m hex hm hc => ?_, fun m hex hm hc => ?_⟩
  · simp only [DeleteVolume, h1, h2, hne, hvid]
    simp
  · by_cases hp : p = ""
    · subst hp
      simp [DeleteVolume, h1, h2, hex, hm, hc, hvid, bucketExists_removeBucket]
    · simp [DeleteVolume, h1, h2, hex, hm, hc, hvid, hp, bucketExists_removeBucket]
  · by_cases hp : p = ""
    · subst hp
      simp [DeleteVolume, h1, h2, hex, hm, hc, hvid]
    · simp [DeleteVolume, h1, h2, hex, hm, hc, hvid, hp, bucketExists_removePfx]

/-- C3 witness: deleting an absent bucket succeeds with no mutation, and
deleting a csi-created bucket removes it. -/
theorem claim_C3_delete_witness :
    ((DeleteVolume true ⟨"gone"⟩ (S3State.mk [] [] [])).result = .ok () ∧
      (DeleteVolume true ⟨"gone"⟩ (S3State.mk [] [] [])).state = S3State.mk [] [] [] ∧
      (DeleteVolume true ⟨"gone"⟩ (S3State.mk [] [] [])).actions = []) ∧
    ((DeleteVolume true ⟨"mine"⟩
        ⟨["mine"], [(("mine", ""), ⟨"mine", "", "", 7, "csi-fs", true⟩)], []⟩).result = .ok () ∧
      Action.aRemoveBucket "mine" ∈ (DeleteVolume true ⟨"mine"⟩
        ⟨["mine"], [(("mine", ""), ⟨"mine", "", "", 7, "csi-fs", true⟩)], []⟩).actions ∧
      bucketExists (DeleteVolume true ⟨"mine"⟩
        ⟨["mine"], [(("mine", ""), ⟨"mine", "", "", 7, "csi-fs", true⟩)], []⟩).state "mine" = false) :=
  ⟨(claim_C3_delete ⟨"gone"⟩ (S3State.mk [] [] []) "gone" ""
      (by decide) (by decide)).1 (by decide),
   (claim_C3_delete ⟨"mine"⟩
      ⟨["mine"], [(("mine", ""), ⟨"mine", "", "", 7, "csi-fs", true⟩)], []⟩ "mine" ""
      (by decide) (by decide)).2.1 ⟨"mine", "", "", 7, "csi-fs", true⟩
      (by decide) (by decide) (by decide)⟩

/-! ## Claims about CreateVolume -/

/-- C2: CreateVolume on a name whose bucket exists with readable
metadata rejects a capacity request above the stored `CapacityBytes`
with already-exists and no backend mutation; with a capacity at or below
the stored value it succeeds and the persisted record differs from the
stored one only in the `Mounter` field. -/
theorem claim_C2_create_existing (req : CreateVolumeRequest) (st : S3State)
    (meta0 : FSMeta)
    (hvid : cvVolumeID req ≠ "")
    (hcaps : req.capabilities ≠ none)
    (hex : bucketExists st (cvBucketName req) = true)
    (hm : getFSMeta st (cvBucketName req) (cvPfx req) = some meta0) :
    (req.requiredBytes > meta0.capacityBytes →
      (CreateVolume true req st).result = .error .alreadyExists ∧
      (CreateVolume true req st).state = st ∧
      (CreateVolume true req st).actions = []) ∧
    (req.requiredBytes ≤ meta0.capacityBytes →
      (CreateVolume true req st).result =
        .ok ⟨cvVolumeID req, req.requiredBytes, req.parameters⟩ ∧
      (CreateVolume true req st).actions =
        [.aSetFSMeta
          { meta0 with mounter := (lookupParam req.parameters TypeKey).getD "" }] ∧
      (CreateVolume true req st).state =
        setFSMeta st
          { meta0 with mounter := (lookupParam req.parameters TypeKey).getD "" }) := by
  constructor
  · intro hgt
    simp only [CreateVolume, hvid, hcaps, hex, hm]
    simp [hgt]
  · intro hle
    simp only [CreateVolume, hvid, hcaps, hex, hm]
    simp [not_lt.mpr hle]

/-- C2 witness: against a stored capacity of 100, requesting 150 fails
with already-exists and requesting 50 succeeds. -/
theorem claim_C2_create_existing_witness :
    (CreateVolume true ⟨"b", some [], 150, []⟩
      ⟨["b"], [(("b", ""), ⟨"b", "", "m1", 100, "csi-fs", true⟩)], []⟩).result =
      .error .alreadyExists ∧
    (CreateVolume true ⟨"b", some [], 50, []⟩
      ⟨["b"], [(("b", ""), ⟨"b", "", "m1", 100, "csi-fs", true⟩)], []⟩).result =
      .ok ⟨cvVolumeID ⟨"b", some [], 50, []⟩,
           (CreateVolumeRequest.mk "b" (some []) 50 []).requiredBytes,
           (CreateVolumeRequest.mk "b" (some []) 50 []).parameters⟩ :=
  ⟨((claim_C2_create_existing ⟨"b", some [], 150, []⟩
      ⟨["b"], [(("b", ""), ⟨"b", "", "m1", 100, "csi-fs", true⟩)], []⟩
      ⟨"b", "", "m1", 100, "csi-fs", true⟩
      (by decide) (by decide) (by decide) (by decide)).1 (by decide)).1,
   ((claim_C2_create_existing ⟨"b", some [], 50, []⟩
      ⟨["b"], [(("b", ""), ⟨"b", "", "m1", 100, "csi-fs", true⟩)], []⟩
      ⟨"b", "", "m1", 100, "csi-fs", true⟩
      (by decide) (by decide) (by decide) (by decide)).2 (by decide)).1⟩

/-- C6: CreateVolume on a bucket that exists but whose metadata cannot
be read proceeds: it succeeds and persists a fresh record with
`CreatedByCsi = false`, the derived bucket name and prefix, the
request's mounter tag and capacity, and the fixed `FSPath`. -/
theorem claim_C6_create_unreadable (req : CreateVolumeRequest) (st : S3State)
    (hvid : cvVolumeID req ≠ "")
    (hcaps : req.capabilities ≠ none)
    (hex : bucketExists st (cvBucketName req) = true)
    (hm : getFSMeta st (cvBucketName req) (cvPfx req) = none) :
    (CreateVolume true req st).result =
      .ok ⟨cvVolumeID req, req.requiredBytes, req.parameters⟩ ∧
    (CreateVolume true req st).actions =
      [.aSetFSMeta ⟨cvBucketName req, cvPfx req,
        (lookupParam req.parameters TypeKey).getD "",
        req.requiredBytes, defaultFsPath, false⟩] ∧
    (CreateVolume true req st).state =
      setFSMeta st ⟨cvBucketName req, cvPfx req,
        (lookupParam req.parameters TypeKey).getD "",
        req.requiredBytes, defaultFsPath, false⟩ := by
  simp only [CreateVolume, hvid, hcaps, hex, hm]
  simp

/-- C6 witness: an externally created bucket with unreadable metadata
still gets a fresh `CreatedByCsi = false` record written. -/
theorem claim_C6_create_unreadable_witness :
    (CreateVolume true ⟨"ext", some [], 42, [("mounter", "s3fs")]⟩
      ⟨["ext"], [], []⟩).result =
      .ok ⟨cvVolumeID ⟨"ext", some [], 42, [("mounter", "s3fs")]⟩,
           (CreateVolumeRequest.mk "ext" (some []) 42 [("mounter", "s3fs")]).requiredBytes,
           (CreateVolumeRequest.mk "ext" (some []) 42 [("mounter", "s3fs")]).parameters⟩ ∧
    (CreateVolume true ⟨"ext", some [], 42, [("mounter", "s3fs")]⟩
      ⟨["ext"], [], []⟩).actions =
      [.aSetFSMeta ⟨cvBucketName ⟨"ext", some [], 42, [("mounter", "s3fs")]⟩,
        cvPfx ⟨"ext", some [], 42, [("mounter", "s3fs")]⟩,
        (lookupParam [("mounter", "s3fs")] TypeKey).getD "",
        (CreateVolumeRequest.mk "ext" (some []) 42 [("mounter", "s3fs")]).requiredBytes,
        defaultFsPath, false⟩] ∧
    (CreateVolume true ⟨"ext", some [], 42, [("mounter", "s3fs")]⟩
      ⟨["ext"], [], []⟩).state =
      setFSMeta ⟨["ext"], [], []⟩
        ⟨cvBucketName ⟨"ext", some [], 42, [("mounter", "s3fs")]⟩,
        cvPfx ⟨"ext", some [], 42, [("mounter", "s3fs")]⟩,
        (lookupParam [("mounter", "s3fs")] TypeKey).getD "",
        (CreateVolumeRequest.mk "ext" (some []) 42 [("mounter", "s3fs")]).requiredBytes,
        defaultFsPath, false⟩ :=
  claim_C6_create_unreadable ⟨"ext", some [], 42, [("mounter", "s3fs")]⟩
    ⟨["ext"], [], []⟩ (by decide) (by decide) (by decide) (by decide)

/-- C9: every successful CreateVolume response carries exactly the
requested capacity — the stored `CapacityBytes` of an existing volume is
never echoed back. -/
theorem claim_C9_capacity (csOk : Bool) (req : CreateVolumeRequest)
    (st : S3State) (v : CsiVolume)
    (h : (CreateVolume csOk req st).result = .ok v) :
    v.capacityBytes = req.requiredBytes := by
  simp only [CreateVolume] at h
  repeat' split at h
  all_goals simp_all
  all_goals (obtain rfl := h; rfl)

/-- C9 witness: idempotent replay against a stored capacity of 100
requesting 7 answers capacity 7. -/
theorem claim_C9_capacity_witness :
    (CsiVolume.mk "b" 7 []).capacityBytes =
      (CreateVolumeRequest.mk "b" (some []) 7 []).requiredBytes :=
  claim_C9_capacity true ⟨"b", some [], 7, []⟩
    ⟨["b"], [(("b", ""), ⟨"b", "", "m1", 100, "csi-fs", true⟩)], []⟩
    ⟨"b", 7, []⟩ (by decide)

/-- C10: CreateVolume and ValidateVolumeCapabilities reject the
capability list with invalid-argument only when it is absent (nil); a
present but empty list is accepted, and ValidateVolumeCapabilities with
an empty list on an existing volume with readable metadata returns a
confirmed response. -/
theorem claim_C10_capability_check (req : CreateVolumeRequest)
    (vreq : ValidateRequest) (st : S3State) (b p : String) (m : FSMeta)
    (hbp : volumeIDToBucketPrefix vreq.volumeId = (b, p)) :
    (req.capabilities = none →
      (CreateVolume true req st).result = .error .invalidArgument) ∧
    (vreq.capabilities = none →
      ValidateVolumeCapabilities vreq st = .error .invalidArgument) ∧
    (req.capabilities = some [] → cvVolumeID req ≠ "" →
      (CreateVolume true req st).result ≠ .error .invalidArgument) ∧
    (vreq.capabilities = some [] → vreq.volumeId ≠ "" →
      bucketExists st b = true → getFSMeta st b p = some m →
      ValidateVolumeCapabilities vreq st =
        .ok ⟨some [⟨some supportedAccessMode⟩], ""⟩) := by
  have h1 : (volumeIDToBucketPrefix vreq.volumeId).1 = b := by rw [hbp]
  have h2 : (volumeIDToBucketPrefix vreq.volumeId).2 = p := by rw [hbp]
  refine ⟨fun hc => ?_, fun hc => ?_, fun hc hvid => ?_, fun hc hvid hex hm => ?_⟩
  · by_cases hvid : cvVolumeID req = "" <;>
      simp [CreateVolume, hvid, hc]
  · by_cases hvid : vreq.volumeId = "" <;>
      simp [ValidateVolumeCapabilities, hvid, hc]
  · simp only [CreateVolume, hvid, hc]
    cases hB : bucketExists st (cvBucketName req)
    · simp [hB]
    · cases hG : getFSMeta st (cvBucketName req) (cvPfx req)
      · simp [hB, hG]
      · rename_i meta0
        by_cases hgt : req.requiredBytes > meta0.capacityBytes
        · simp [hB, hG, hgt]
        · simp [hB, hG, hgt]
  · simp [ValidateVolumeCapabilities, h1, h2, hvid, hc, hex, hm]

/-- C10 witness: a nil capability list is rejected by both handlers; an
empty one passes CreateVolume and is confirmed by
ValidateVolumeCapabilities. -/
theorem claim_C10_capability_check_witness :
    (CreateVolume true ⟨"x", none, 0, []⟩ ⟨[], [], []⟩).result =
      .error .invalidArgument ∧
    ValidateVolumeCapabilities ⟨"v", none⟩ ⟨[], [], []⟩ =
      .error .invalidArgument ∧
    (CreateVolume true ⟨"x", some [], 0, []⟩ ⟨[], [], []⟩).result ≠
      .error .invalidArgument ∧
    ValidateVolumeCapabilities ⟨"v", some []⟩
      ⟨["v"], [(("v", ""), ⟨"v", "", "", 9, "csi-fs", true⟩)], []⟩ =
      .ok ⟨some [⟨some supportedAccessMode⟩], ""⟩ :=
  ⟨(claim_C10_capability_check ⟨"x", none, 0, []⟩ ⟨"v", none⟩ ⟨[], [], []⟩
      "v" "" ⟨"v", "", "", 9, "csi-fs", true⟩ (by decide)).1 rfl,
   (claim_C10_capability_check ⟨"x", none, 0, []⟩ ⟨"v", none⟩ ⟨[], [], []⟩
      "v" "" ⟨"v", "", "", 9, "csi-fs", true⟩ (by decide)).2.1 rfl,
   (claim_C10_capability_check ⟨"x", some [], 0, []⟩ ⟨"v", some []⟩ ⟨[], [], []⟩
      "v" "" ⟨"v", "", "", 9, "csi-fs", true⟩ (by decide)).2.2.1 rfl (by decide),
   (claim_C10_capability_check ⟨"x", some [], 0, []⟩ ⟨"v", some []⟩
      ⟨["v"], [(("v", ""), ⟨"v", "", "", 9, "csi-fs", true⟩)], []⟩
      "v" "" ⟨"v", "", "", 9, "csi-fs", true⟩ (by decide)).2.2.2 rfl
      (by decide) (by decide) (by decide)⟩

/-! ## Claims about ValidateVolumeCapabilities -/

/-- C7: ValidateVolumeCapabilities fails with not-found when the bucket
is missing or its metadata unreadable; a capability with a non
single-node-writer access mode yields a non-confirming response with a
message (not an error); all-matching capabilities yield a confirmation
listing exactly the single supported mode. -/
theorem claim_C7_validate (req : ValidateRequest) (st : S3State)
    (caps : List VolumeCapability) (b p : String)
    (hbp : volumeIDToBucketPrefix req.volumeId = (b, p))
    (hvid : req.volumeId ≠ "")
    (hcaps : req.capabilities = some caps) :
    (bucketExists st b = false →
      ValidateVolumeCapabilities req st = .error .notFound) ∧
    (bucketExists st b = true → getFSMeta st b p = none →
      ValidateVolumeCapabilities req st = .error .notFound) ∧
    (∀ m : FSMeta, bucketExists st b = true → getFSMeta st b p = some m →
      (∃ c ∈ caps, getMode c ≠ supportedAccessMode) →
      ValidateVolumeCapabilities req st =
        .ok ⟨none, "Only single node writer is supported"⟩) ∧
    (∀ m : FSMeta, bucketExists st b = true → getFSMeta st b p = some m →
      (∀ c ∈ caps, getMode c = supportedAccessMode) →
      ValidateVolumeCapabilities req st =
        .ok ⟨some [⟨some supportedAccessMode⟩], ""⟩) := by
  have h1 : (volumeIDToBucketPrefix req.volumeId).1 = b := by rw [hbp]
  have h2 : (volumeIDToBucketPrefix req.volumeId).2 = p := by rw [hbp]
  refine ⟨fun hne => ?_, fun hex hm => ?_,
          fun m hex hm hbad => ?_, fun m hex hm hgood => ?_⟩
  · simp [ValidateVolumeCapabilities, hvid, hcaps, h1, hne]
  · simp [ValidateVolumeCapabilities, hvid, hcaps, h1, h2, hex, hm]
  · obtain ⟨c, hcmem, hcmode⟩ := hbad
    have hall : caps.all (fun c => getMode c == supportedAccessMode) = false := by
      rw [Bool.eq_false_iff]
      intro hall
      rw [List.all_eq_true] at hall
      exact hcmode (eq_of_beq (hall c hcmem))
    simp [ValidateVolumeCapabilities, hvid, hcaps, h1, h2, hex, hm, hall]
  · have hall : caps.all (fun c => getMode c == supportedAccessMode) = true := by
      rw [List.all_eq_true]
      intro c hcm
      exact beq_iff_eq.mpr (hgood c hcm)
    simp [ValidateVolumeCapabilities, hvid, hcaps, h1, h2, hex, hm, hall]

/-- C7 witness: missing bucket gives not-found; a multi-writer request
gets the message response; a single-node-writer request is confirmed. -/
theorem claim_C7_validate_witness :
    ValidateVolumeCapabilities ⟨"v", some [⟨some .SINGLE_NODE_WRITER⟩]⟩
      ⟨[], [], []⟩ = .error .notFound ∧
    ValidateVolumeCapabilities ⟨"v", some [⟨some .MULTI_NODE_MULTI_WRITER⟩]⟩
      ⟨["v"], [(("v", ""), ⟨"v", "", "", 9, "csi-fs", true⟩)], []⟩ =
      .ok ⟨none, "Only single node writer is supported"⟩ ∧
    ValidateVolumeCapabilities ⟨"v", some [⟨some .SINGLE_NODE_WRITER⟩]⟩
      ⟨["v"], [(("v", ""), ⟨"v", "", "", 9, "csi-fs", true⟩)], []⟩ =
      .ok ⟨some [⟨some supportedAccessMode⟩], ""⟩ :=
  ⟨(claim_C7_validate ⟨"v", some [⟨some .SINGLE_NODE_WRITER⟩]⟩ ⟨[], [], []⟩
      [⟨some .SINGLE_NODE_WRITER⟩] "v" "" (by decide) (by decide) rfl).1 (by decide),
   (claim_C7_validate ⟨"v", some [⟨some .MULTI_NODE_MULTI_WRITER⟩]⟩
      ⟨["v"], [(("v", ""), ⟨"v", "", "", 9, "csi-fs", true⟩)], []⟩
      [⟨some .MULTI_NODE_MULTI_WRITER⟩] "v" "" (by decide) (by decide) rfl).2.2.1
      ⟨"v", "", "", 9, "csi-fs", true⟩ (by decide) (by decide) (by decide),
   (claim_C7_validate ⟨"v", some [⟨some .SINGLE_NODE_WRITER⟩]⟩
      ⟨["v"], [(("v", ""), ⟨"v", "", "", 9, "csi-fs", true⟩)], []⟩
      [⟨some .SINGLE_NODE_WRITER⟩] "v" "" (by decide) (by decide) rfl).2.2.2
      ⟨"v", "", "", 9, "csi-fs", true⟩ (by decide) (by decide) (by decide)⟩

end CsiS3
